import Mathlib

/-!
Verification of the hourly energy-balance simulator and capacity-sizing
search of the power-system repository.

The embedding works over `ℚ`: the Python sources compute with IEEE floats,
but every constant in them is an exact decimal literal, so the arithmetic
is modelled exactly by rationals.  Hourly series are `List ℚ`.  The two
relevant source files are `optimization.py` (mix-parameterised simulator
`calc_all` feeding the black-box search) and `ANALYSIS BASED.py`
(fixed-mix simulator `simulate_energy_balance`); both share the same
constants and the same hour-by-hour balance loop.
-/

/-! ### Shared configuration constants (module level in both files) -/

def total_population : ℚ := 2938200

def investment_per_capita : ℚ := 3000

def total_investment : ℚ := total_population * investment_per_capita

/-- Cost per wind turbine (€, 5 MW): `6.5e6`. -/
def cost_wind : ℚ := 6500000

/-- Cost per solar panel (550 W). -/
def cost_panels : ℚ := 600

/-- Cost per nuclear SMR (€, 50 MW): `250e6`. -/
def cost_smr : ℚ := 250000000

/-- Cost per kWh of storage. -/
def cost_storage_kwh : ℚ := 100

/-- Area of Brighton (km²): `3832.2`. -/
def area : ℚ := 38322 / 10

def hydro_power_per_km2 : ℚ := 20

/-- Round-trip storage efficiency: `0.85`. -/
def storage_efficiency : ℚ := 85 / 100

/-- Initial storage fraction: `0.5`. -/
def initial_storage_fraction : ℚ := 1 / 2

def hydro_capacity : ℚ := area * hydro_power_per_km2

/-! ### Time-Series Normalizer

`ensure_8760` appears identically in both source files:

```python
def ensure_8760(data):
    if len(data) > 8760:
        return data[:8760]
    elif len(data) < 8760:
        return np.pad(data, (0, 8760 - len(data)), 'edge')
    return data
```

`np.pad(_, (0, k), 'edge')` appends `k` copies of the last sample.  On an
empty input `np.pad` with mode `'edge'` raises, so the empty case is a
caller precondition (spec §4.1); the `getD 0` below is never reached under
the non-emptiness hypotheses of the theorems. -/

def ensure_8760 (data : List ℚ) : List ℚ :=
  if 8760 < data.length then
    data.take 8760
  else if data.length < 8760 then
    data ++ List.replicate (8760 - data.length) (data.getLast?.getD 0)
  else
    data

theorem ensure_8760_len (s : List ℚ) : (ensure_8760 s).length = 8760 := by
  unfold ensure_8760
  by_cases h1 : 8760 < s.length
  · simp [h1]
    omega
  · by_cases h2 : s.length < 8760
    · simp [h1, h2]
      omega
    · simp [h1, h2]
      omega

theorem ensure_8760_of_length_eq (s : List ℚ) (h : s.length = 8760) :
    ensure_8760 s = s := by
  unfold ensure_8760
  simp [h]

/-- C7: Normalizer length and shape: for every input series of length ≥ 1,
the normalizer returns a series of length exactly 8760, equal to the first
8760 samples when the input is longer, equal to the input when the length
is exactly 8760, and equal to the input followed by repetitions of its
last sample (edge-padding) when shorter. -/
theorem ensure_8760_length_and_shape (s : List ℚ) (hs : s ≠ []) :
    (ensure_8760 s).length = 8760 ∧
    (8760 < s.length → ensure_8760 s = s.take 8760) ∧
    (s.length = 8760 → ensure_8760 s = s) ∧
    (s.length < 8760 →
      ensure_8760 s = s ++ List.replicate (8760 - s.length) (s.getLast hs)) := by
  refine ⟨ensure_8760_len s, ?_, ensure_8760_of_length_eq s, ?_⟩
  · intro h
    unfold ensure_8760
    simp [h]
  · intro h
    unfold ensure_8760
    simp [Nat.not_lt.mpr (Nat.le_of_lt h), h,
      List.getLast?_eq_getLast_of_ne_nil hs]

/-- Witness for C7 at the concrete one-element series `[5]`. -/
theorem ensure_8760_length_and_shape_witness :
    (ensure_8760 [5]).length = 8760 ∧
    (8760 < [(5 : ℚ)].length → ensure_8760 [5] = [(5 : ℚ)].take 8760) ∧
    ([(5 : ℚ)].length = 8760 → ensure_8760 [5] = [5]) ∧
    ([(5 : ℚ)].length < 8760 →
      ensure_8760 [5] =
        [5] ++ List.replicate (8760 - [(5 : ℚ)].length)
          ([(5 : ℚ)].getLast (by simp))) :=
  ensure_8760_length_and_shape [5] (by simp)

/-- C8: Normalizer idempotence: for every non-empty input series `s`,
`ensure_8760 (ensure_8760 s) = ensure_8760 s`. -/
theorem ensure_8760_idempotent (s : List ℚ) (hs : s ≠ []) :
    ensure_8760 (ensure_8760 s) = ensure_8760 s :=
  ensure_8760_of_length_eq (ensure_8760 s) (ensure_8760_len s)

/-- Witness for C8 at the concrete series `[1, 2]`. -/
theorem ensure_8760_idempotent_witness :
    ensure_8760 (ensure_8760 [1, 2]) = ensure_8760 [1, 2] :=
  ensure_8760_idempotent [1, 2] (by simp)

/-! ### Balance Simulator: the hour-by-hour loop

Loop body shared by `simulate_energy_balance` (`ANALYSIS BASED.py`,
lines 66-78) and `calc_all` (`optimization.py`, lines 82-94):

```python
surplus = total_production[h] - hourly_demand[h]
if surplus > 0:
    storage = min(storage + surplus * 0.85, storage_capacity)
else:
    deficit = -surplus
    if storage >= deficit:
        storage -= deficit
    else:
        remaining_deficit = deficit - storage
        storage = 0
        gas_consumption[h] = max(0, remaining_deficit)
storage_values.append(storage)
```

`simulate_step` returns the hour's resulting storage level and its
backup-gas usage (the entry written into `gas_consumption`, which is 0 in
the first two branches since the array starts as `np.zeros`). -/

def simulate_step (storage_capacity storage p d : ℚ) : ℚ × ℚ :=
  let surplus := p - d
  if 0 < surplus then
    (min (storage + surplus * storage_efficiency) storage_capacity, 0)
  else
    let deficit := -surplus
    if deficit ≤ storage then
      (storage - deficit, 0)
    else
      (0, max 0 (deficit - storage))

/-- The `for h in range(8760)` loop, walking the zipped
(production, demand) pairs in strict hour order and threading the storage
level; returns (`gas_consumption` series, `storage_values` trace). -/
def simulate_go (storage_capacity : ℚ) : ℚ → List (ℚ × ℚ) → List ℚ × List ℚ
  | _, [] => ([], [])
  | storage, (p, d) :: rest =>
    let s := simulate_step storage_capacity storage p d
    let r := simulate_go storage_capacity s.1 rest
    (s.2 :: r.1, s.1 :: r.2)

namespace AnalysisBased

/-! Definitions of `ANALYSIS BASED.py` (fixed installed infrastructure). -/

def wind_turbines : ℚ := 625

def solar_panels : ℚ := 4759059

def nuclear_smrs : ℚ := 5

/-- Source `np.full(8760, 244382.352845001)`: constant hourly nuclear output. -/
def nuclear_production : List ℚ := List.replicate 8760 (244382352845001 / 1000000000)

/-- Source `np.full(8760, 76644.0)`: constant hourly hydro output (the module
array named `hydro_capacity` in this file). -/
def hydro_capacity_series : List ℚ := List.replicate 8760 76644

/-- Function `calculate_energy_production` (lines 50-57): returns
(total, wind, solar, nuclear, hydro).  The numpy products
`np.full(8760, c) * arr[:8760]` are elementwise over 8760 samples; the
callers pass curves already normalised by `ensure_8760`. -/
def calculate_energy_production (wind_power irradiation : List ℚ) :
    List ℚ × List ℚ × List ℚ × List ℚ × List ℚ :=
  let wind_energy :=
    List.zipWith (fun n w => n * w) (List.replicate 8760 wind_turbines)
      (wind_power.take 8760)
  let solar_energy :=
    List.zipWith (fun n i => n * i * (55 / 100) * (28 / 10) * (197 / 1000))
      (List.replicate 8760 solar_panels) (irradiation.take 8760)
  let nuclear_energy := nuclear_production
  let hydro_energy := hydro_capacity_series
  let total_production :=
    List.zipWith (· + ·)
      (List.zipWith (· + ·) (List.zipWith (· + ·) wind_energy solar_energy)
        nuclear_energy)
      hydro_energy
  (total_production, wind_energy, solar_energy, nuclear_energy, hydro_energy)

/-- Line 61: residual budget of the fixed mix divided by the storage cost
per kWh. -/
def storage_capacity : ℚ :=
  (total_investment -
      (wind_turbines * cost_wind + solar_panels * cost_panels +
        nuclear_smrs * cost_smr)) /
    cost_storage_kwh

/-- Function `simulate_energy_balance` (lines 59-80): initial storage at 50% of
capacity, then the hour loop; returns (gas series, storage trace). -/
def simulate_energy_balance (total_production hourly_demand : List ℚ) :
    List ℚ × List ℚ :=
  simulate_go storage_capacity (storage_capacity * (1 / 2))
    (total_production.zip hourly_demand)

end AnalysisBased

/-! #### Branch equations of the loop body -/

/-- Charging branch of the loop body. -/
theorem simulate_step_pos (cap s p d : ℚ) (h : 0 < p - d) :
    simulate_step cap s p d = (min (s + (p - d) * (85 / 100)) cap, 0) := by
  simp only [simulate_step, storage_efficiency, if_pos h]

/-- Discharging branch, deficit fully covered by storage. -/
theorem simulate_step_cover (cap s p d : ℚ) (h : p - d ≤ 0)
    (hc : d - p ≤ s) : simulate_step cap s p d = (s - (d - p), 0) := by
  have hnot : ¬ 0 < p - d := not_lt.mpr h
  have hd : -(p - d) = d - p := by ring
  simp only [simulate_step, if_neg hnot, hd, if_pos hc]

/-- Discharging branch, deficit exceeding storage: backup covers the
remainder and the level drops to 0. -/
theorem simulate_step_short (cap s p d : ℚ) (h : p - d ≤ 0)
    (hc : s < d - p) : simulate_step cap s p d = (0, (d - p) - s) := by
  have hnot : ¬ 0 < p - d := not_lt.mpr h
  have hd : -(p - d) = d - p := by ring
  have hns : ¬ d - p ≤ s := not_le.mpr hc
  simp only [simulate_step, if_neg hnot, hd, if_neg hns]
  rw [max_eq_right (by linarith)]

/-! #### Invariants of the balance loop -/

theorem simulate_step_storage_bounds (cap s p d : ℚ) (h0 : 0 ≤ s)
    (h1 : s ≤ cap) :
    0 ≤ (simulate_step cap s p d).1 ∧ (simulate_step cap s p d).1 ≤ cap := by
  have hcap : 0 ≤ cap := le_trans h0 h1
  rcases lt_or_le 0 (p - d) with hpd | hpd
  · rw [simulate_step_pos cap s p d hpd]
    exact ⟨le_min (by nlinarith) hcap, min_le_right _ _⟩
  · rcases le_or_lt (d - p) s with hcov | hcov
    · rw [simulate_step_cover cap s p d hpd hcov]
      constructor
      · simpa using hcov
      · have : 0 ≤ d - p := by linarith
        simp only []
        linarith
    · rw [simulate_step_short cap s p d hpd hcov]
      exact ⟨le_refl 0, hcap⟩

theorem simulate_go_lengths (cap : ℚ) (pairs : List (ℚ × ℚ)) :
    ∀ s : ℚ, (simulate_go cap s pairs).1.length = pairs.length ∧
      (simulate_go cap s pairs).2.length = pairs.length := by
  induction pairs with
  | nil => intro s; simp [simulate_go]
  | cons pd rest ih =>
    intro s
    obtain ⟨p, d⟩ := pd
    simp only [simulate_go, List.length_cons]
    exact ⟨by rw [(ih _).1], by rw [(ih _).2]⟩

theorem simulate_go_storage_mem (cap : ℚ) (pairs : List (ℚ × ℚ)) :
    ∀ s : ℚ, 0 ≤ s → s ≤ cap →
      ∀ x ∈ (simulate_go cap s pairs).2, 0 ≤ x ∧ x ≤ cap := by
  induction pairs with
  | nil => intro s _ _ x hx; simp [simulate_go] at hx
  | cons pd rest ih =>
    intro s h0 h1 x hx
    obtain ⟨p, d⟩ := pd
    simp only [simulate_go, List.mem_cons] at hx
    obtain ⟨hs0, hs1⟩ := simulate_step_storage_bounds cap s p d h0 h1
    rcases hx with rfl | hx
    · exact ⟨hs0, hs1⟩
    · exact ih _ hs0 hs1 x hx

/-- C3: storage bound invariant.  For every run with capacity `cap > 0`,
started (as both sources do) at 50% of capacity, every recorded
post-transition storage level lies in `[0, cap]`, whatever the
production/demand pairs are. -/
theorem storage_level_bounds (cap : ℚ) (hcap : 0 < cap)
    (pairs : List (ℚ × ℚ)) :
    ∀ x ∈ (simulate_go cap (cap * (1 / 2)) pairs).2, 0 ≤ x ∧ x ≤ cap :=
  simulate_go_storage_mem cap pairs (cap * (1 / 2)) (by linarith)
    (by linarith)

/-- Witness for C3: the hour-0 level of a concrete one-hour run
(capacity 1000, production 500, demand 900) is 100, and the theorem
bounds it. -/
theorem storage_level_bounds_witness : 0 ≤ (100 : ℚ) ∧ (100 : ℚ) ≤ 1000 :=
  storage_level_bounds 1000 (by norm_num) [(500, 900)] 100
    (by norm_num [simulate_go, simulate_step, storage_efficiency])

theorem simulate_step_gas_spec (cap s p d : ℚ) :
    0 ≤ (simulate_step cap s p d).2 ∧
      (0 < (simulate_step cap s p d).2 → (simulate_step cap s p d).1 = 0) := by
  rcases lt_or_le 0 (p - d) with hpd | hpd
  · rw [simulate_step_pos cap s p d hpd]
    exact ⟨le_refl 0, fun h => absurd h (by norm_num)⟩
  · rcases le_or_lt (d - p) s with hcov | hcov
    · rw [simulate_step_cover cap s p d hpd hcov]
      exact ⟨le_refl 0, fun h => absurd h (by norm_num)⟩
    · rw [simulate_step_short cap s p d hpd hcov]
      exact ⟨by simp only []; linarith, fun _ => rfl⟩

theorem simulate_go_gas_spec (cap : ℚ) (pairs : List (ℚ × ℚ)) :
    ∀ (s : ℚ) (i : ℕ) (b t : ℚ),
      (simulate_go cap s pairs).1[i]? = some b →
      (simulate_go cap s pairs).2[i]? = some t →
      0 ≤ b ∧ (0 < b → t = 0) := by
  induction pairs with
  | nil => intro s i b t hb _; simp [simulate_go] at hb
  | cons pd rest ih =>
    intro s i b t hb ht
    obtain ⟨p, d⟩ := pd
    match i with
    | 0 =>
      simp only [simulate_go, List.getElem?_cons_zero, Option.some.injEq] at hb ht
      subst hb; subst ht
      exact simulate_step_gas_spec cap s p d
    | Nat.succ j =>
      simp only [simulate_go, List.getElem?_cons_succ] at hb ht
      exact ih _ j b t hb ht

/-- C4: backup non-negativity.  In every run (capacity `cap > 0`, initial
level 50% of capacity), every recorded backup value is ≥ 0, and a
strictly positive backup at hour `i` forces that hour's recorded
post-transition storage level to be exactly 0. -/
theorem backup_nonneg_only_when_empty (cap : ℚ) (hcap : 0 < cap)
    (pairs : List (ℚ × ℚ)) (i : ℕ) (b t : ℚ)
    (hb : (simulate_go cap (cap * (1 / 2)) pairs).1[i]? = some b)
    (ht : (simulate_go cap (cap * (1 / 2)) pairs).2[i]? = some t) :
    0 ≤ b ∧ (0 < b → t = 0) :=
  simulate_go_gas_spec cap pairs (cap * (1 / 2)) i b t hb ht

/-- Witness for C4: hour 1 of a concrete two-hour run (capacity 1000,
production 500, demand 900 both hours) has backup 300 and storage
level 0; the theorem applies there. -/
theorem backup_nonneg_only_when_empty_witness :
    0 ≤ (300 : ℚ) ∧ ((0 : ℚ) < 300 → (0 : ℚ) = 0) :=
  backup_nonneg_only_when_empty 1000 (by norm_num)
    [(500, 900), (500, 900)] 1 300 0
    (by norm_num [simulate_go, simulate_step, storage_efficiency])
    (by norm_num [simulate_go, simulate_step, storage_efficiency])

/-! ### `optimization.py`: mix-parameterised generation, cost model,
simulator and objective.  The module-level data arrays (`wind_power`,
`irradiation`, `hourly_demand`), loaded from files and passed through
`ensure_8760`, are parameters of the embedding. -/

/-- Function `calc_energy_production` (lines 56-67).  Note that
`nuclear_production = NSMR * 50 * 1000` is a *scalar* in the source (numpy
broadcasts it when the series are summed), so the third component is a
`ℚ`, not a list. -/
def calc_energy_production (wind_power irradiation : List ℚ)
    (Nmills Npanels NSMR : ℚ) : List ℚ × List ℚ × ℚ × List ℚ :=
  let wind_production := wind_power.map (fun w => Nmills * w)
  let solar_production :=
    irradiation.map (fun i => Npanels * (i / 1000) * (55 / 100) * (28 / 10) * (197 / 1000))
  let nuclear_production := NSMR * 50 * 1000
  let hydro_production := List.replicate 8760 hydro_capacity
  (wind_production, solar_production, nuclear_production, hydro_production)

/-- Line 73: the quantity `calc_all` uses as storage capacity — the
residual budget in euros, *not* divided by `cost_storage_kwh`. -/
def storage_kwh (Nmills Npanels NSMR : ℚ) : ℚ :=
  total_investment -
    (Nmills * cost_wind + Npanels * cost_panels + NSMR * cost_smr)

/-- The loop of `calc_all` (lines 82-94): same transitions as
`simulate_step`, but backup is accumulated into the scalar
`gas_consumption` (`gas += deficit - storage`, without the `max`). -/
def calc_all_go (storage_cap : ℚ) : ℚ → ℚ → List (ℚ × ℚ) → ℚ × List ℚ
  | gas, _, [] => (gas, [])
  | gas, storage, (p, d) :: rest =>
    let surplus := p - d
    if 0 < surplus then
      let storage2 := min (storage + surplus * storage_efficiency) storage_cap
      let r := calc_all_go storage_cap gas storage2 rest
      (r.1, storage2 :: r.2)
    else
      let deficit := -surplus
      if deficit ≤ storage then
        let storage2 := storage - deficit
        let r := calc_all_go storage_cap gas storage2 rest
        (r.1, storage2 :: r.2)
      else
        let r := calc_all_go storage_cap (gas + (deficit - storage)) 0 rest
        (r.1, (0 : ℚ) :: r.2)

/-- Total hourly production in `calc_all` (line 78):
`wind + solar + nuclear + hydro` with the scalar nuclear broadcast. -/
def total_production_series (wind_power irradiation : List ℚ)
    (Nmills Npanels NSMR : ℚ) : List ℚ :=
  let prod := calc_energy_production wind_power irradiation Nmills Npanels NSMR
  List.zipWith (· + ·)
    (List.zipWith (fun w s => w + s + prod.2.2.1) prod.1 prod.2.1)
    prod.2.2.2

/-- Function `calc_all` (lines 69-98): returns
(gas consumption, storage trace, total production); when the derived
storage capacity is ≤ 0 it returns the sentinel `1e30` with empty lists
and never runs the hour loop. -/
def calc_all (wind_power irradiation hourly_demand : List ℚ)
    (Nmills Npanels NSMR : ℚ) : ℚ × List ℚ × List ℚ :=
  let cap := storage_kwh Nmills Npanels NSMR
  if 0 < cap then
    let total_production :=
      total_production_series wind_power irradiation Nmills Npanels NSMR
    let r :=
      calc_all_go cap 0 (cap * initial_storage_fraction)
        (total_production.zip hourly_demand)
    (r.1, r.2, total_production)
  else
    ((10 : ℚ) ^ 30, [], [])

/-- Function `optimization_function` (lines 101-103): the scalar objective. -/
def optimization_function (wind_power irradiation hourly_demand : List ℚ)
    (params : ℚ × ℚ × ℚ) : ℚ :=
  (calc_all wind_power irradiation hourly_demand params.1 params.2.1 params.2.2).1

/-- Search bounds (lines 106-110): `(0, total_investment // unit_cost)`
per variable; Python floor division. -/
def in_bounds (Nmills Npanels NSMR : ℚ) : Prop :=
  (0 ≤ Nmills ∧ Nmills ≤ (⌊total_investment / cost_wind⌋ : ℚ)) ∧
  (0 ≤ Npanels ∧ Npanels ≤ (⌊total_investment / cost_panels⌋ : ℚ)) ∧
  (0 ≤ NSMR ∧ NSMR ≤ (⌊total_investment / cost_smr⌋ : ℚ))

/-- Storage capacity as the spec's §4.4 words state it: the residual
budget *divided by* the fixed cost per kWh of storage.  Stated separately
from `storage_kwh` (the source expression of `optimization.py` line 73)
so the two can be compared. -/
def spec_storage_capacity_kwh (wind_count solar_count nuclear_count : ℚ) : ℚ :=
  (total_investment -
      (wind_count * cost_wind + solar_count * cost_panels +
        nuclear_count * cost_smr)) /
    cost_storage_kwh

/-- C1: `calc_all` in `optimization.py` (line 73) uses the residual
budget in euros directly as the storage capacity, omitting the division
by `cost_storage_kwh` (a constant that file defines and never uses); the
sibling `simulate_energy_balance` (`ANALYSIS BASED.py` line 61) and the
spec both divide.  Evaluated at the fixed installed mix
(625, 4759059, 5): the two quantities differ by the factor 100. -/
theorem storage_capacity_division_missing :
    storage_kwh 625 4759059 5 = 646664600 ∧
    spec_storage_capacity_kwh 625 4759059 5 = 6466646 ∧
    AnalysisBased.storage_capacity = spec_storage_capacity_kwh 625 4759059 5 ∧
    storage_kwh 625 4759059 5 ≠ spec_storage_capacity_kwh 625 4759059 5 := by
  refine ⟨?_, ?_, ?_, ?_⟩ <;>
    norm_num [storage_kwh, spec_storage_capacity_kwh,
      AnalysisBased.storage_capacity, AnalysisBased.wind_turbines,
      AnalysisBased.solar_panels, AnalysisBased.nuclear_smrs,
      total_investment, total_population, investment_per_capita, cost_wind,
      cost_panels, cost_smr, cost_storage_kwh]

/-- C2: the per-hour transition.  With `net = p − d`: a positive net
charges `min (s + net × 0.85, cap)` with zero backup (the 0.85 factor
appears only in this charging branch); a non-positive net with deficit
`d − p` discharges in full when the level covers it, and otherwise the
backup is the uncovered remainder `(d − p) − s` and the level drops to 0.
The final conjunct shows the loop applies this step hour by hour,
threading each hour's resulting level into the next. -/
theorem simulate_step_transition (cap s p d : ℚ) :
    (0 < p - d →
      simulate_step cap s p d = (min (s + (p - d) * (85 / 100)) cap, 0)) ∧
    (p - d ≤ 0 → d - p ≤ s →
      simulate_step cap s p d = (s - (d - p), 0)) ∧
    (p - d ≤ 0 → s < d - p →
      simulate_step cap s p d = (0, (d - p) - s)) ∧
    (∀ rest : List (ℚ × ℚ),
      simulate_go cap s ((p, d) :: rest) =
        ((simulate_step cap s p d).2 ::
            (simulate_go cap (simulate_step cap s p d).1 rest).1,
          (simulate_step cap s p d).1 ::
            (simulate_go cap (simulate_step cap s p d).1 rest).2)) :=
  ⟨simulate_step_pos cap s p d, simulate_step_cover cap s p d,
    simulate_step_short cap s p d, fun _ => rfl⟩

/-- Witness for C2: the three branches at concrete inputs
(cap 1000; surplus hour 900/500 from level 200; covered deficit hour
500/900 from level 500; uncovered deficit hour 500/900 from level 100),
and the sequencing equation on a concrete list. -/
theorem simulate_step_transition_witness :
    simulate_step 1000 200 900 500 =
      (min (200 + ((900 : ℚ) - 500) * (85 / 100)) 1000, 0) ∧
    simulate_step 1000 500 500 900 = (500 - ((900 : ℚ) - 500), 0) ∧
    simulate_step 1000 100 500 900 = (0, ((900 : ℚ) - 500) - 100) ∧
    simulate_go 1000 500 [((500 : ℚ), (900 : ℚ))] =
      ((simulate_step 1000 500 500 900).2 ::
          (simulate_go 1000 (simulate_step 1000 500 500 900).1 []).1,
        (simulate_step 1000 500 500 900).1 ::
          (simulate_go 1000 (simulate_step 1000 500 500 900).1 []).2) :=
  ⟨(simulate_step_transition 1000 200 900 500).1 (by norm_num),
    (simulate_step_transition 1000 500 500 900).2.1 (by norm_num) (by norm_num),
    (simulate_step_transition 1000 100 500 900).2.2.1 (by norm_num) (by norm_num),
    (simulate_step_transition 1000 500 500 900).2.2.2 []⟩

/-! ### Scenario run (C9) -/

theorem zip_replicate_same {α β : Type} (n : ℕ) (a : α) (b : β) :
    (List.replicate n a).zip (List.replicate n b) = List.replicate n (a, b) := by
  induction n with
  | zero => rfl
  | succ k ih =>
    rw [List.replicate_succ a k, List.replicate_succ b k,
      List.replicate_succ (a, b) k, List.zip_cons_cons, ih]

/-- From an empty store, a flat 400-kWh hourly deficit is met entirely by
backup: every hour records backup 400 and storage 0. -/
theorem simulate_go_flat_deficit (n : ℕ) :
    simulate_go 1000 0 (List.replicate n ((500 : ℚ), (900 : ℚ))) =
      (List.replicate n 400, List.replicate n 0) := by
  induction n with
  | zero => rfl
  | succ k ih =>
    have hstep : simulate_step 1000 0 500 900 = (0, 400) := by
      rw [simulate_step_short 1000 0 500 900 (by norm_num) (by norm_num)]
      norm_num
    rw [List.replicate_succ ((500 : ℚ), (900 : ℚ)) k]
    simp only [simulate_go, hstep, ih]
    rw [List.replicate_succ (400 : ℚ) k, List.replicate_succ (0 : ℚ) k]

/-- C9: with production flat at 500 and demand flat at 900 over the 8760
hours, capacity 1000 and initial storage 500 (= 0.5 × capacity), the run
produces: hour 0 — deficit 400 covered by storage (level 100, backup 0);
hour 1 — deficit 400 exceeds the stored 100 (backup 300, level 0); hours
2..8759 — backup exactly 400 with level 0.  The equation lists the full
backup series and storage trace. -/
theorem scenario_flat_deficit_trace :
    simulate_go 1000 (1000 * (1 / 2))
        ((List.replicate 8760 (500 : ℚ)).zip (List.replicate 8760 (900 : ℚ))) =
      (0 :: 300 :: List.replicate 8758 400,
        100 :: 0 :: List.replicate 8758 0) := by
  have hz := zip_replicate_same 8760 (500 : ℚ) (900 : ℚ)
  have h8760 : (8760 : ℕ) = 8758 + 1 + 1 := by norm_num
  have hs0 : simulate_step 1000 (1000 * (1 / 2)) 500 900 = (100, 0) := by
    rw [simulate_step_cover 1000 (1000 * (1 / 2)) 500 900 (by norm_num)
      (by norm_num)]
    norm_num
  have hs1 : simulate_step 1000 100 500 900 = (0, 300) := by
    rw [simulate_step_short 1000 100 500 900 (by norm_num) (by norm_num)]
    norm_num
  rw [hz, h8760, List.replicate_succ ((500 : ℚ), (900 : ℚ)) (8758 + 1),
    List.replicate_succ ((500 : ℚ), (900 : ℚ)) 8758]
  show (let s := simulate_step 1000 (1000 * (1 / 2)) 500 900;
    let r := simulate_go 1000 s.1 (((500 : ℚ), (900 : ℚ)) :: List.replicate 8758 ((500 : ℚ), (900 : ℚ)));
    (s.2 :: r.1, s.1 :: r.2)) = _
  rw [hs0]
  show (let s := simulate_step 1000 100 500 900;
    let r := simulate_go 1000 s.1 (List.replicate 8758 ((500 : ℚ), (900 : ℚ)));
    ((0 : ℚ) :: s.2 :: r.1, (100 : ℚ) :: s.1 :: r.2)) = _
  rw [hs1]
  show ((0 : ℚ) :: (300 : ℚ) ::
      (simulate_go 1000 0 (List.replicate 8758 ((500 : ℚ), (900 : ℚ)))).1,
    (100 : ℚ) :: (0 : ℚ) ::
      (simulate_go 1000 0 (List.replicate 8758 ((500 : ℚ), (900 : ℚ)))).2) = _
  rw [simulate_go_flat_deficit 8758]

/-! ### Generation model (C6) -/

/-- C6: with normalised input curves (length 8760), the Generation Model
of `ANALYSIS BASED.py` returns wind, solar, nuclear and hydro series each
of length exactly 8760; the nuclear series is the constant
`nuclear_smrs × per-unit output` at every hour; and (via the
mix-parameterised `calc_energy_production` of `optimization.py`) the
nuclear output is `NSMR × 50 × 1000` and the hydro series is the constant
`hydro_capacity` at every hour, independent of the mix. -/
theorem generation_model_series (wp irr : List ℚ)
    (hwp : wp.length = 8760) (hirr : irr.length = 8760) :
    (AnalysisBased.calculate_energy_production wp irr).2.1.length = 8760 ∧
    (AnalysisBased.calculate_energy_production wp irr).2.2.1.length = 8760 ∧
    (AnalysisBased.calculate_energy_production wp irr).2.2.2.1.length = 8760 ∧
    (AnalysisBased.calculate_energy_production wp irr).2.2.2.2.length = 8760 ∧
    (AnalysisBased.calculate_energy_production wp irr).2.2.2.1 =
      List.replicate 8760
        (AnalysisBased.nuclear_smrs * (244382352845001 / 5000000000)) ∧
    (∀ Nm Np Ns : ℚ,
      (calc_energy_production wp irr Nm Np Ns).2.2.1 = Ns * 50 * 1000) ∧
    (∀ Nm Np Ns Nm2 Np2 Ns2 : ℚ,
      (calc_energy_production wp irr Nm Np Ns).2.2.2 =
        (calc_energy_production wp irr Nm2 Np2 Ns2).2.2.2) ∧
    (∀ Nm Np Ns : ℚ,
      (calc_energy_production wp irr Nm Np Ns).2.2.2 =
        List.replicate 8760 hydro_capacity) := by
  refine ⟨?_, ?_, ?_, ?_, ?_, fun _ _ _ => rfl, fun _ _ _ _ _ _ => rfl,
    fun _ _ _ => rfl⟩
  · show (List.zipWith (fun n w => n * w)
        (List.replicate 8760 AnalysisBased.wind_turbines)
        (wp.take 8760)).length = 8760
    rw [List.length_zipWith, List.length_replicate, List.length_take, hwp]
    omega
  · show (List.zipWith
        (fun n i => n * i * (55 / 100) * (28 / 10) * (197 / 1000))
        (List.replicate 8760 AnalysisBased.solar_panels)
        (irr.take 8760)).length = 8760
    rw [List.length_zipWith, List.length_replicate, List.length_take, hirr]
    omega
  · show (List.replicate 8760 (244382352845001 / 1000000000 : ℚ)).length = 8760
    exact List.length_replicate 8760 _
  · show (List.replicate 8760 (76644 : ℚ)).length = 8760
    exact List.length_replicate 8760 _
  · show AnalysisBased.nuclear_production = _
    rw [show (AnalysisBased.nuclear_smrs * (244382352845001 / 5000000000) : ℚ)
        = 244382352845001 / 1000000000 by
      norm_num [AnalysisBased.nuclear_smrs]]
    rfl

/-- Witness for C6 at concrete flat input curves of length 8760. -/
theorem generation_model_series_witness :
    (AnalysisBased.calculate_energy_production (List.replicate 8760 (1 : ℚ))
        (List.replicate 8760 (1 : ℚ))).2.1.length = 8760 ∧
    (AnalysisBased.calculate_energy_production (List.replicate 8760 (1 : ℚ))
        (List.replicate 8760 (1 : ℚ))).2.2.1.length = 8760 ∧
    (AnalysisBased.calculate_energy_production (List.replicate 8760 (1 : ℚ))
        (List.replicate 8760 (1 : ℚ))).2.2.2.1.length = 8760 ∧
    (AnalysisBased.calculate_energy_production (List.replicate 8760 (1 : ℚ))
        (List.replicate 8760 (1 : ℚ))).2.2.2.2.length = 8760 ∧
    (AnalysisBased.calculate_energy_production (List.replicate 8760 (1 : ℚ))
        (List.replicate 8760 (1 : ℚ))).2.2.2.1 =
      List.replicate 8760
        (AnalysisBased.nuclear_smrs * (244382352845001 / 5000000000)) ∧
    (∀ Nm Np Ns : ℚ,
      (calc_energy_production (List.replicate 8760 (1 : ℚ))
          (List.replicate 8760 (1 : ℚ)) Nm Np Ns).2.2.1 = Ns * 50 * 1000) ∧
    (∀ Nm Np Ns Nm2 Np2 Ns2 : ℚ,
      (calc_energy_production (List.replicate 8760 (1 : ℚ))
          (List.replicate 8760 (1 : ℚ)) Nm Np Ns).2.2.2 =
        (calc_energy_production (List.replicate 8760 (1 : ℚ))
          (List.replicate 8760 (1 : ℚ)) Nm2 Np2 Ns2).2.2.2) ∧
    (∀ Nm Np Ns : ℚ,
      (calc_energy_production (List.replicate 8760 (1 : ℚ))
          (List.replicate 8760 (1 : ℚ)) Nm Np Ns).2.2.2 =
        List.replicate 8760 hydro_capacity) :=
  generation_model_series (List.replicate 8760 (1 : ℚ))
    (List.replicate 8760 (1 : ℚ)) (List.length_replicate 8760 1)
    (List.length_replicate 8760 1)

/-! ### Relating the `calc_all` loop to the per-hour backup series -/

/-- The scalar gas accumulation of `calc_all` equals the sum of the
per-hour backup series of `simulate_energy_balance`'s loop, and the two
loops record identical storage traces. -/
theorem calc_all_go_eq_simulate (cap : ℚ) (pairs : List (ℚ × ℚ)) :
    ∀ gas s : ℚ,
      calc_all_go cap gas s pairs =
        (gas + (simulate_go cap s pairs).1.sum,
          (simulate_go cap s pairs).2) := by
  induction pairs with
  | nil => intro gas s; simp [calc_all_go, simulate_go]
  | cons pd rest ih =>
    intro gas s
    obtain ⟨p, d⟩ := pd
    simp only [calc_all_go, simulate_go, simulate_step]
    by_cases hpd : 0 < p - d
    · simp only [if_pos hpd, ih, List.sum_cons, Prod.mk.injEq]
      refine ⟨by ring, ?_⟩
      trivial
    · simp only [if_neg hpd]
      by_cases hcov : -(p - d) ≤ s
      · simp only [if_pos hcov, ih, List.sum_cons, Prod.mk.injEq]
        refine ⟨by ring, ?_⟩
        trivial
      · simp only [if_neg hcov, ih, List.sum_cons, Prod.mk.injEq]
        rw [max_eq_right (by linarith [not_le.mp hcov])]
        refine ⟨by ring, ?_⟩
        trivial

/-- Membership in a `zipWith` comes from members of both lists. -/
theorem mem_zipWith_imp {α β γ : Type} {f : α → β → γ} {x : γ} :
    ∀ {l1 : List α} {l2 : List β}, x ∈ List.zipWith f l1 l2 →
      ∃ a ∈ l1, ∃ b ∈ l2, x = f a b := by
  intro l1
  induction l1 with
  | nil => intro l2 h; simp at h
  | cons a as ih =>
    intro l2 h
    cases l2 with
    | nil => simp at h
    | cons b bs =>
      rw [List.zipWith_cons_cons, List.mem_cons] at h
      rcases h with rfl | h
      · exact ⟨a, List.mem_cons_self a as, b, List.mem_cons_self b bs, rfl⟩
      · obtain ⟨a2, ha, b2, hb, rfl⟩ := ih h
        exact ⟨a2, List.mem_cons_of_mem a ha, b2, List.mem_cons_of_mem b hb,
          rfl⟩

/-- With non-negative unit counts and non-negative input curves, every
hourly total production value of `calc_all` is non-negative. -/
theorem total_production_series_nonneg (wp irr : List ℚ) (Nm Np Ns : ℚ)
    (hwp : ∀ w ∈ wp, 0 ≤ w) (hirr : ∀ i ∈ irr, 0 ≤ i)
    (hNm : 0 ≤ Nm) (hNp : 0 ≤ Np) (hNs : 0 ≤ Ns) :
    ∀ x ∈ total_production_series wp irr Nm Np Ns, 0 ≤ x := by
  intro x hx
  have hx2 : x ∈ List.zipWith (· + ·)
      (List.zipWith (fun w s => w + s + Ns * 50 * 1000)
        (wp.map (fun w => Nm * w))
        (irr.map (fun i =>
          Np * (i / 1000) * (55 / 100) * (28 / 10) * (197 / 1000))))
      (List.replicate 8760 hydro_capacity) := hx
  obtain ⟨ws, hws, hy, hhy, rfl⟩ := mem_zipWith_imp hx2
  obtain ⟨w, hw, so, hso, rfl⟩ := mem_zipWith_imp hws
  obtain ⟨w0, hw0, rfl⟩ := List.mem_map.mp hw
  obtain ⟨i0, hi0, rfl⟩ := List.mem_map.mp hso
  have h1 : 0 ≤ Nm * w0 := mul_nonneg hNm (hwp w0 hw0)
  have h2 : 0 ≤ Np * (i0 / 1000) * (55 / 100) * (28 / 10) * (197 / 1000) := by
    have := hirr i0 hi0
    positivity
  have h3 : 0 ≤ Ns * 50 * 1000 := by positivity
  have h4 : 0 ≤ hy := by
    rw [List.eq_of_mem_replicate hhy]
    norm_num [hydro_capacity, area, hydro_power_per_km2]
  linarith

/-- Every backup entry of a run is at most that hour's demand, so the
total backup is at most the sum of the zipped demand values (production
and demand assumed non-negative, capacity non-negative, start level
non-negative). -/
theorem simulate_go_gas_sum_le (cap : ℚ) (pairs : List (ℚ × ℚ)) :
    ∀ s : ℚ, 0 ≤ s → 0 ≤ cap →
      (∀ pr ∈ pairs, 0 ≤ pr.1 ∧ 0 ≤ pr.2) →
      (simulate_go cap s pairs).1.sum ≤ (pairs.map Prod.snd).sum := by
  induction pairs with
  | nil => intro s _ _ _; simp [simulate_go]
  | cons pd rest ih =>
    intro s hs hcap hpr
    obtain ⟨p, d⟩ := pd
    have hp : 0 ≤ p := (hpr (p, d) (List.mem_cons_self _ _)).1
    have hd : 0 ≤ d := (hpr (p, d) (List.mem_cons_self _ _)).2
    have hrest : ∀ pr ∈ rest, 0 ≤ pr.1 ∧ 0 ≤ pr.2 :=
      fun pr h => hpr pr (List.mem_cons_of_mem _ h)
    rcases lt_or_le 0 (p - d) with hpd | hpd
    · have hstep := simulate_step_pos cap s p d hpd
      have hs2 : 0 ≤ (simulate_step cap s p d).1 := by
        rw [hstep]
        exact le_min (by nlinarith) hcap
      simp only [simulate_go, List.map_cons, List.sum_cons]
      have hb : (simulate_step cap s p d).2 = 0 := by rw [hstep]
      rw [hb]
      have := ih (simulate_step cap s p d).1 hs2 hcap hrest
      linarith
    · rcases le_or_lt (d - p) s with hcov | hcov
      · have hstep := simulate_step_cover cap s p d hpd hcov
        have hs2 : 0 ≤ (simulate_step cap s p d).1 := by
          rw [hstep]
          simp only []
          linarith
        simp only [simulate_go, List.map_cons, List.sum_cons]
        have hb : (simulate_step cap s p d).2 = 0 := by rw [hstep]
        rw [hb]
        have := ih (simulate_step cap s p d).1 hs2 hcap hrest
        linarith
      · have hstep := simulate_step_short cap s p d hpd hcov
        have hs2 : 0 ≤ (simulate_step cap s p d).1 := by rw [hstep]
        simp only [simulate_go, List.map_cons, List.sum_cons]
        have hb : (simulate_step cap s p d).2 = (d - p) - s := by rw [hstep]
        rw [hb]
        have := ih (simulate_step cap s p d).1 hs2 hcap hrest
        have hble : (d - p) - s ≤ d := by linarith
        linarith

/-- Summing the demand components of zipped pairs never exceeds the sum
of the (non-negative) demand series. -/
theorem zip_snd_sum_le (prod : List ℚ) :
    ∀ dem : List ℚ, (∀ d ∈ dem, 0 ≤ d) →
      ((prod.zip dem).map Prod.snd).sum ≤ dem.sum := by
  induction prod with
  | nil =>
    intro dem hdem
    simpa using List.sum_nonneg hdem
  | cons p ps ih =>
    intro dem hdem
    cases dem with
    | nil => simp
    | cons d ds =>
      rw [List.zip_cons_cons, List.map_cons, List.sum_cons, List.sum_cons]
      have := ih ds (fun x hx => hdem x (List.mem_cons_of_mem _ hx))
      linarith

/-- Feasible branch of `calc_all`, with the scalar gas accumulation
re-expressed as the sum of the per-hour backup series. -/
theorem calc_all_pos (wp irr dem : List ℚ) (Nm Np Ns : ℚ)
    (h : 0 < storage_kwh Nm Np Ns) :
    calc_all wp irr dem Nm Np Ns =
      ((simulate_go (storage_kwh Nm Np Ns)
          (storage_kwh Nm Np Ns * initial_storage_fraction)
          ((total_production_series wp irr Nm Np Ns).zip dem)).1.sum,
        (simulate_go (storage_kwh Nm Np Ns)
          (storage_kwh Nm Np Ns * initial_storage_fraction)
          ((total_production_series wp irr Nm Np Ns).zip dem)).2,
        total_production_series wp irr Nm Np Ns) := by
  unfold calc_all
  rw [if_pos h]
  show ((calc_all_go (storage_kwh Nm Np Ns) 0
      (storage_kwh Nm Np Ns * initial_storage_fraction)
      ((total_production_series wp irr Nm Np Ns).zip dem)).1,
    (calc_all_go (storage_kwh Nm Np Ns) 0
      (storage_kwh Nm Np Ns * initial_storage_fraction)
      ((total_production_series wp irr Nm Np Ns).zip dem)).2,
    total_production_series wp irr Nm Np Ns) = _
  rw [calc_all_go_eq_simulate, zero_add]

/-- Infeasible branch of `calc_all`. -/
theorem calc_all_neg (wp irr dem : List ℚ) (Nm Np Ns : ℚ)
    (h : ¬ 0 < storage_kwh Nm Np Ns) :
    calc_all wp irr dem Nm Np Ns = ((10 : ℚ) ^ 30, [], []) := by
  unfold calc_all
  rw [if_neg h]

theorem total_production_series_length (wp irr : List ℚ) (Nm Np Ns : ℚ) :
    (total_production_series wp irr Nm Np Ns).length =
      min (min wp.length irr.length) 8760 := by
  show (List.zipWith (· + ·)
      (List.zipWith (fun w s => w + s + Ns * 50 * 1000)
        (wp.map (fun w => Nm * w))
        (irr.map (fun i =>
          Np * (i / 1000) * (55 / 100) * (28 / 10) * (197 / 1000))))
      (List.replicate 8760 hydro_capacity)).length = _
  rw [List.length_zipWith, List.length_zipWith, List.length_map,
    List.length_map, List.length_replicate]

/-- C5: infeasibility sentinel.  For any mix whose capital cost reaches
the total budget, `calc_all` returns the sentinel `1e30` with empty
traces (the 8760-hour loop is never entered) and the objective is exactly
`1e30`; and for any feasible mix inside the search bounds — with
physically sensible data (non-negative curves and demand, total annual
demand below `1e30`) — the objective is strictly below the sentinel. -/
theorem infeasible_sentinel_dominates (wp irr dem : List ℚ)
    (Nm Np Ns Nm2 Np2 Ns2 : ℚ)
    (hwp : ∀ x ∈ wp, 0 ≤ x) (hirr : ∀ x ∈ irr, 0 ≤ x)
    (hdem : ∀ x ∈ dem, 0 ≤ x) (hsum : dem.sum < 10 ^ 30)
    (hb : in_bounds Nm Np Ns)
    (hfeas : 0 < storage_kwh Nm Np Ns)
    (hinf : total_investment ≤
      Nm2 * cost_wind + Np2 * cost_panels + Ns2 * cost_smr) :
    calc_all wp irr dem Nm2 Np2 Ns2 = ((10 : ℚ) ^ 30, [], []) ∧
    optimization_function wp irr dem (Nm2, Np2, Ns2) = (10 : ℚ) ^ 30 ∧
    optimization_function wp irr dem (Nm, Np, Ns) < (10 : ℚ) ^ 30 := by
  have hinf2 : ¬ 0 < storage_kwh Nm2 Np2 Ns2 := by
    rw [storage_kwh]
    simp only [not_lt]
    linarith
  have hcalc := calc_all_neg wp irr dem Nm2 Np2 Ns2 hinf2
  refine ⟨hcalc, ?_, ?_⟩
  · show (calc_all wp irr dem Nm2 Np2 Ns2).1 = (10 : ℚ) ^ 30
    rw [hcalc]
  · show (calc_all wp irr dem Nm Np Ns).1 < (10 : ℚ) ^ 30
    rw [calc_all_pos wp irr dem Nm Np Ns hfeas]
    have hcap0 : 0 ≤ storage_kwh Nm Np Ns := le_of_lt hfeas
    have hinit : 0 ≤ storage_kwh Nm Np Ns * initial_storage_fraction := by
      rw [initial_storage_fraction]
      linarith
    have hpairs : ∀ pr ∈ (total_production_series wp irr Nm Np Ns).zip dem,
        0 ≤ pr.1 ∧ 0 ≤ pr.2 := by
      rintro ⟨a, b⟩ hab
      obtain ⟨ha, hb2⟩ := List.of_mem_zip hab
      exact ⟨total_production_series_nonneg wp irr Nm Np Ns hwp hirr
        hb.1.1 hb.2.1.1 hb.2.2.1 a ha, hdem b hb2⟩
    have h1 := simulate_go_gas_sum_le (storage_kwh Nm Np Ns)
      ((total_production_series wp irr Nm Np Ns).zip dem)
      (storage_kwh Nm Np Ns * initial_storage_fraction) hinit hcap0 hpairs
    have h2 := zip_snd_sum_le (total_production_series wp irr Nm Np Ns) dem
      hdem
    calc (simulate_go (storage_kwh Nm Np Ns)
          (storage_kwh Nm Np Ns * initial_storage_fraction)
          ((total_production_series wp irr Nm Np Ns).zip dem)).1.sum
        ≤ (((total_production_series wp irr Nm Np Ns).zip dem).map
            Prod.snd).sum := h1
      _ ≤ dem.sum := h2
      _ < 10 ^ 30 := hsum

/-- Witness for C5: empty data series, the feasible mix (0, 0, 0) and the
infeasible mix (0, 0, 100). -/
theorem infeasible_sentinel_dominates_witness :
    calc_all [] [] [] 0 0 100 = ((10 : ℚ) ^ 30, [], []) ∧
    optimization_function [] [] [] (0, 0, 100) = (10 : ℚ) ^ 30 ∧
    optimization_function [] [] [] (0, 0, 0) < (10 : ℚ) ^ 30 :=
  infeasible_sentinel_dominates [] [] [] 0 0 0 0 0 100
    (by simp) (by simp) (by simp) (by norm_num)
    (by
      have h1 : (0 : ℚ) ≤ (⌊total_investment / cost_wind⌋ : ℚ) := by
        exact_mod_cast Int.floor_nonneg.mpr (by
          norm_num [total_investment, total_population,
            investment_per_capita, cost_wind])
      have h2 : (0 : ℚ) ≤ (⌊total_investment / cost_panels⌋ : ℚ) := by
        exact_mod_cast Int.floor_nonneg.mpr (by
          norm_num [total_investment, total_population,
            investment_per_capita, cost_panels])
      have h3 : (0 : ℚ) ≤ (⌊total_investment / cost_smr⌋ : ℚ) := by
        exact_mod_cast Int.floor_nonneg.mpr (by
          norm_num [total_investment, total_population,
            investment_per_capita, cost_smr])
      exact ⟨⟨le_refl 0, h1⟩, ⟨le_refl 0, h2⟩, ⟨le_refl 0, h3⟩⟩)
    (by norm_num [storage_kwh, total_investment, total_population,
      investment_per_capita, cost_wind, cost_panels, cost_smr])
    (by norm_num [total_investment, total_population, investment_per_capita,
      cost_wind, cost_panels, cost_smr])

/-- C10: return-shape dichotomy of `calc_all`.  With module data of
length 8760 (as `ensure_8760` guarantees), a mix with derived storage
capacity > 0 yields a storage trace of length exactly 8760, and a mix
with derived capacity ≤ 0 yields exactly `(1e30, [], [])`. -/
theorem calc_all_return_shape (wp irr dem : List ℚ) (Nm Np Ns : ℚ)
    (hwp : wp.length = 8760) (hirr : irr.length = 8760)
    (hdem : dem.length = 8760) :
    (0 < storage_kwh Nm Np Ns →
      (calc_all wp irr dem Nm Np Ns).2.1.length = 8760) ∧
    (storage_kwh Nm Np Ns ≤ 0 →
      calc_all wp irr dem Nm Np Ns = ((10 : ℚ) ^ 30, [], [])) := by
  constructor
  · intro h
    rw [calc_all_pos wp irr dem Nm Np Ns h]
    show (simulate_go (storage_kwh Nm Np Ns)
      (storage_kwh Nm Np Ns * initial_storage_fraction)
      ((total_production_series wp irr Nm Np Ns).zip dem)).2.length = 8760
    rw [(simulate_go_lengths (storage_kwh Nm Np Ns)
        ((total_production_series wp irr Nm Np Ns).zip dem)
        (storage_kwh Nm Np Ns * initial_storage_fraction)).2,
      List.length_zip, total_production_series_length, hwp, hirr, hdem]
    omega
  · intro h
    exact calc_all_neg wp irr dem Nm Np Ns (not_lt.mpr h)

/-- Witness for C10: flat data of length 8760 and the mix (0, 0, 0). -/
theorem calc_all_return_shape_witness :
    (0 < storage_kwh 0 0 0 →
      (calc_all (List.replicate 8760 (1 : ℚ)) (List.replicate 8760 (1 : ℚ))
          (List.replicate 8760 (1 : ℚ)) 0 0 0).2.1.length = 8760) ∧
    (storage_kwh 0 0 0 ≤ 0 →
      calc_all (List.replicate 8760 (1 : ℚ)) (List.replicate 8760 (1 : ℚ))
          (List.replicate 8760 (1 : ℚ)) 0 0 0 = ((10 : ℚ) ^ 30, [], [])) :=
  calc_all_return_shape (List.replicate 8760 (1 : ℚ))
    (List.replicate 8760 (1 : ℚ)) (List.replicate 8760 (1 : ℚ)) 0 0 0
    (List.length_replicate 8760 1) (List.length_replicate 8760 1)
    (List.length_replicate 8760 1)
